import Mathlib

/-!
Shallow embedding of src/src/db/sqlite/SQLiteConnection.c, the SQLite
implementation of the libzdb Connection/Delegate interface, together with
theorems checking the specification claims about it.

The native sqlite3 library is an external collaborator: each native call that
can answer differently on different attempts is modelled by an explicit
response oracle `resp : Nat -> Nat` giving the native status of the i-th
attempt, and `msg : Nat -> String` giving the engine error message
(sqlite3_errmsg) that describes a given final status.
-/

set_option autoImplicit false

/-! SQLite result codes used by the driver (from sqlite3.h). -/

def SQLITE_OK : Nat := 0
def SQLITE_ERROR : Nat := 1
def SQLITE_BUSY : Nat := 5
def SQLITE_LOCKED : Nat := 6
def SQLITE_CANTOPEN : Nat := 14
def SQLITE_MISUSE : Nat := 21

/-- Modelled from the spec: the default busy/lock timeout configured on every new
delegate (`SQL_DEFAULT_TIMEOUT`, defined in a repository header that is not under
src/); the spec only requires a configured timeout, the concrete value in
milliseconds is taken from the repository convention. -/
def SQL_DEFAULT_TIMEOUT : Nat := 3000

/-- A native status that is a transient busy/locked condition (spec section 4.5). -/
def isTransient (s : Nat) : Bool := s == SQLITE_BUSY || s == SQLITE_LOCKED

/-- Modelled from the spec: the brief sleep between busy retries, in milliseconds
(the retry macro is in a repository header that is not under src/). -/
def RETRY_SLEEP_MS : Nat := 10

/-- Modelled from the spec: the core loop of the `EXEC_SQLITE` busy-retry macro
(defined in a repository header not present under src/). Per spec section 4.5 a
transient busy/locked status is retried with a brief bounded sleep between
attempts, up to the configured timeout; when the budget is exhausted the
transient status stands as the final status. `resp i` is the native status of
the i-th attempt; the result is (final status, number of attempts made). -/
def execRetryLoop (resp : Nat → Nat) : Nat → Nat → Nat × Nat
  | 0, i => (resp i, i + 1)
  | fuel + 1, i => if isTransient (resp i) then execRetryLoop resp fuel (i + 1) else (resp i, i + 1)

/-- Modelled from the spec: number of retries the timeout allows, one per sleep
interval. -/
def retryBudget (timeout : Nat) : Nat := timeout / RETRY_SLEEP_MS

/-- Modelled from the spec: `EXEC_SQLITE(status, action, timeout)` — run the
native action through the busy-retry policy; gives (final status, attempts). -/
def EXEC_SQLITE (timeout : Nat) (resp : Nat → Nat) : Nat × Nat :=
  execRetryLoop resp (retryBudget timeout) 0

/-- Model of the native sqlite3 handle state this driver observes: the message
`sqlite3_errmsg` reports, and the counters behind `sqlite3_last_insert_rowid`
and `sqlite3_changes`. Status-producing native calls (open, exec, prepare)
update `errmsg`; the two read-only counter calls leave it untouched, per the
documented sqlite3 behavior. -/
structure DBHandle where
  errmsg : String
  lastInsertRowid : Int
  changes : Int
  deriving Repr, DecidableEq

/-- `struct ConnectionDelegate_T` (SQLiteConnection.c lines 53-60): native
handle, maximum row cap, busy timeout, last native status, and a scratch
string buffer. The delegator back-reference is modelled by passing the URL
where the code reads it. -/
structure ConnState where
  db : DBHandle
  maxRows : Nat
  timeout : Nat
  lastError : Nat
  sb : String
  deriving Repr, DecidableEq

/-- Trace entries for the native calls the delegate performs. Sleep durations
are in microseconds, matching Time_usleep. -/
inductive NativeCall where
  | openDB (path : String)
  | closeDB
  | busyTimeout (ms : Nat)
  | execAttempt (sql : String)
  | prepareAttempt (sql : String)
  | softHeapLimit (kiloBytes : String)
  | sleep (us : Nat)
  | readLastInsertRowid
  | readChanges
  deriving Repr, DecidableEq

/-- Trace of `n` attempts of the same native call with a sleep of `us`
microseconds between consecutive attempts. -/
def attemptTrace (call : NativeCall) (us : Nat) : Nat → List NativeCall
  | 0 => []
  | 1 => [call]
  | n + 2 => call :: NativeCall.sleep us :: attemptTrace call us (n + 1)

/-- `_executeSQL` (lines 103-109): run the SQL through the busy-retry wrapper,
store the final native status in `lastError`, and let the handle carry the
engine message describing that status. -/
def executeSQL (C : ConnState) (sql : String) (resp : Nat → Nat) (msg : Nat → String) :
    ConnState × List NativeCall :=
  let r := EXEC_SQLITE C.timeout resp
  ({ C with lastError := r.1, db := { C.db with errmsg := msg r.1 } },
   attemptTrace (NativeCall.execAttempt sql) (RETRY_SLEEP_MS * 1000) r.2)

/-- Outcome of the boolean-returning delegate operations. -/
structure BoolOutcome where
  state : ConnState
  success : Bool
  calls : List NativeCall
  deriving Repr, DecidableEq

/-- `SQLiteConnection_ping` (lines 170-174): execute the no-op statement
"select 1;" and report whether the final status is SQLITE_OK. -/
def SQLiteConnection_ping (C : ConnState) (resp : Nat → Nat) (msg : Nat → String) : BoolOutcome :=
  let r := executeSQL C "select 1;" resp msg
  { state := r.1, success := r.1.lastError == SQLITE_OK, calls := r.2 }

/-- `SQLiteConnection_beginTransaction` (lines 177-181). -/
def SQLiteConnection_beginTransaction (C : ConnState) (resp : Nat → Nat) (msg : Nat → String) :
    BoolOutcome :=
  let r := executeSQL C "BEGIN TRANSACTION;" resp msg
  { state := r.1, success := r.1.lastError == SQLITE_OK, calls := r.2 }

/-- `SQLiteConnection_commit` (lines 184-188). -/
def SQLiteConnection_commit (C : ConnState) (resp : Nat → Nat) (msg : Nat → String) :
    BoolOutcome :=
  let r := executeSQL C "COMMIT TRANSACTION;" resp msg
  { state := r.1, success := r.1.lastError == SQLITE_OK, calls := r.2 }

/-- `SQLiteConnection_rollback` (lines 191-195). -/
def SQLiteConnection_rollback (C : ConnState) (resp : Nat → Nat) (msg : Nat → String) :
    BoolOutcome :=
  let r := executeSQL C "ROLLBACK TRANSACTION;" resp msg
  { state := r.1, success := r.1.lastError == SQLITE_OK, calls := r.2 }

/-- `SQLiteConnection_execute` (lines 210-218): format the template into the
scratch buffer (StringBuffer_vset; formatting itself is an external
collaborator, so the already formatted SQL text is the argument), execute it,
and report whether the final status is SQLITE_OK. -/
def SQLiteConnection_execute (C : ConnState) (sql : String) (resp : Nat → Nat)
    (msg : Nat → String) : BoolOutcome :=
  let C1 := { C with sb := sql }
  let r := executeSQL C1 C1.sb resp msg
  { state := r.1, success := r.1.lastError == SQLITE_OK, calls := r.2 }

/-- `SQLiteConnection_lastRowId` (lines 198-201): read
sqlite3_last_insert_rowid; a read-only native call that cannot fail and does
not change the handle error state. -/
def SQLiteConnection_lastRowId (C : ConnState) : Int × List NativeCall :=
  (C.db.lastInsertRowid, [NativeCall.readLastInsertRowid])

/-- `SQLiteConnection_rowsChanged` (lines 204-207): read sqlite3_changes. -/
def SQLiteConnection_rowsChanged (C : ConnState) : Int × List NativeCall :=
  (C.db.changes, [NativeCall.readChanges])

/-- `SQLiteConnection_getLastError` (lines 265-268): return sqlite3_errmsg of
the native handle. -/
def SQLiteConnection_getLastError (C : ConnState) : String := C.db.errmsg

/-- A compiled native statement handle (sqlite3_stmt): the SQL text it was
compiled from and its number of bindable parameters
(sqlite3_bind_parameter_count). -/
structure SqlStmt where
  text : String
  bindParamCount : Nat
  deriving Repr, DecidableEq

/-- `SQLiteResultSet_new(stmt, maxRows, keep)`: the result-set delegate built
over a compiled cursor; `keep = false` means the result set owns and must
finalize the statement. -/
structure SQLiteResultSetT where
  stmt : SqlStmt
  maxRows : Nat
  keep : Bool
  deriving Repr, DecidableEq

/-- `SQLitePreparedStatement_new(db, stmt, maxRows)`: the prepared-statement
delegate. -/
structure SQLitePreparedStatementT where
  stmt : SqlStmt
  maxRows : Nat
  deriving Repr, DecidableEq

/-- The generic facade `PreparedStatement_new(delegate, pops, paramCount)`:
pairs the delegate with the parameter count reported to the caller. -/
structure PreparedStatementT where
  delegate : SQLitePreparedStatementT
  paramCount : Nat
  deriving Repr, DecidableEq

/-- Outcome of `SQLiteConnection_executeQuery`. `danglingStmt` is a compiled
native statement left allocated but owned by nobody after the call: on a
failed prepare sqlite3 documents that the output statement is set to NULL, so
no handle exists to leak, and on success the returned result set owns the
handle. -/
structure QueryOutcome where
  state : ConnState
  result : Option SQLiteResultSetT
  calls : List NativeCall
  danglingStmt : Option SqlStmt
  deriving Repr, DecidableEq

/-- `SQLiteConnection_executeQuery` (lines 221-239): format the template into
the scratch buffer, compile it through the busy-retry wrapper
(sqlite3_prepare_v2); on SQLITE_OK wrap the compiled cursor in a result-set
delegate carrying the connection maxRows cap and `keep = false`; otherwise
return NULL. `bindCount` is the bindable-parameter count the engine gives the
compiled statement. -/
def SQLiteConnection_executeQuery (C : ConnState) (sql : String) (resp : Nat → Nat)
    (msg : Nat → String) (bindCount : Nat) : QueryOutcome :=
  let C1 := { C with sb := sql }
  let r := EXEC_SQLITE C1.timeout resp
  let C2 := { C1 with lastError := r.1, db := { C1.db with errmsg := msg r.1 } }
  let tr := attemptTrace (NativeCall.prepareAttempt sql) (RETRY_SLEEP_MS * 1000) r.2
  if r.1 == SQLITE_OK then
    { state := C2, result := some { stmt := ⟨sql, bindCount⟩, maxRows := C2.maxRows, keep := false },
      calls := tr, danglingStmt := none }
  else
    { state := C2, result := none, calls := tr, danglingStmt := none }

/-- Outcome of `SQLiteConnection_prepareStatement`. -/
structure PrepareOutcome where
  state : ConnState
  result : Option PreparedStatementT
  calls : List NativeCall
  danglingStmt : Option SqlStmt
  deriving Repr, DecidableEq

/-- `SQLiteConnection_prepareStatement` (lines 242-262): compile the formatted
template through the busy-retry wrapper; on SQLITE_OK read the bindable
parameter count from the compiled statement and hand it to the caller through
the facade; otherwise return NULL. Bound values are never substituted into the
SQL text: the text compiled is exactly the template, placeholders intact. -/
def SQLiteConnection_prepareStatement (C : ConnState) (sql : String) (resp : Nat → Nat)
    (msg : Nat → String) (bindCount : Nat) : PrepareOutcome :=
  let C1 := { C with sb := sql }
  let r := EXEC_SQLITE C1.timeout resp
  let C2 := { C1 with lastError := r.1, db := { C1.db with errmsg := msg r.1 } }
  let tr := attemptTrace (NativeCall.prepareAttempt sql) (RETRY_SLEEP_MS * 1000) r.2
  if r.1 == SQLITE_OK then
    { state := C2,
      result := some { delegate := { stmt := ⟨sql, bindCount⟩, maxRows := C2.maxRows },
                       paramCount := bindCount },
      calls := tr, danglingStmt := none }
  else
    { state := C2, result := none, calls := tr, danglingStmt := none }

/-- The URL collaborator, as consumed at connection-open time: an optional
path and the ordered named parameters. -/
structure URLModel where
  path : Option String
  params : List (String × String)
  deriving Repr, DecidableEq

/-- Outcome of `_doConnect`. -/
structure ConnectOutcome where
  db : Option DBHandle
  error : Option String
  openCalled : Bool
  closedAfterFailedOpen : Bool
  calls : List NativeCall
  deriving Repr, DecidableEq

/-- `_doConnect` (lines 69-100): a URL with no path yields the error
"no database specified in URL" without touching the native library; an open
failure closes the partially allocated handle and reports a message built
from the path and sqlite3_errmsg; otherwise the fresh handle is returned.
`openStatus` is the native status of sqlite3_open_v2 and `openMsg` the engine
message for a failed open. -/
def doConnect (url : URLModel) (openStatus : Nat) (openMsg : String) : ConnectOutcome :=
  match url.path with
  | none =>
      { db := none, error := some "no database specified in URL",
        openCalled := false, closedAfterFailedOpen := false, calls := [] }
  | some p =>
      if openStatus == SQLITE_OK then
        { db := some { errmsg := "not an error", lastInsertRowid := 0, changes := 0 },
          error := none, openCalled := true, closedAfterFailedOpen := false,
          calls := [NativeCall.openDB p] }
      else
        { db := none,
          error := some ("cannot open database \x27" ++ p ++ "\x27 -- " ++ openMsg),
          openCalled := true, closedAfterFailedOpen := true,
          calls := [NativeCall.openDB p, NativeCall.closeDB] }

/-- One "PRAGMA name = value; " fragment, the StringBuffer_append format used
at line 127. -/
def pragmaEntry (n v : String) : String := "PRAGMA " ++ n ++ " = " ++ v ++ "; "

/-- The property loop body (lines 117-128): the reserved name "heap_limit"
becomes a native soft-heap-limit call handled by the driver itself, and every
other parameter is appended to the PRAGMA batch string. Gives (batch string,
driver-side native calls), in URL parameter order. -/
def propLoop : List (String × String) → String × List NativeCall
  | [] => ("", [])
  | (n, v) :: rest =>
      let r := propLoop rest
      if n = "heap_limit" then (r.1, NativeCall.softHeapLimit v :: r.2)
      else (pragmaEntry n v ++ r.1, r.2)

/-- Outcome of `_setProperties`. -/
structure SetPropsOutcome where
  state : ConnState
  ok : Bool
  error : Option String
  calls : List NativeCall
  deriving Repr, DecidableEq

/-- `_setProperties` (lines 112-136): with no URL parameters nothing happens;
otherwise build the PRAGMA batch (handling "heap_limit" in the driver),
execute it through `_executeSQL`, and on a non-OK final status report
"unable to set database pragmas -- " followed by sqlite3_errmsg. -/
def setProperties (C : ConnState) (url : URLModel) (resp : Nat → Nat) (msg : Nat → String) :
    SetPropsOutcome :=
  match url.params with
  | [] => { state := C, ok := true, error := none, calls := [] }
  | p :: ps =>
      let pl := propLoop (p :: ps)
      let C1 := { C with sb := pl.1 }
      let r := executeSQL C1 pl.1 resp msg
      if r.1.lastError == SQLITE_OK then
        { state := r.1, ok := true, error := none, calls := pl.2 ++ r.2 }
      else
        { state := r.1, ok := false,
          error := some ("unable to set database pragmas -- " ++ r.1.db.errmsg),
          calls := pl.2 ++ r.2 }

/-- The close loop of `SQLiteConnection_free` (lines 163-164): keep calling
sqlite3_close, sleeping 10 microseconds between attempts, while the engine
answers SQLITE_BUSY. `resp i` is the status of the i-th close attempt; the
fuel bounds the modelled unrolling, `none` meaning every probed attempt was
still busy. Gives (final status, index of the exiting attempt). -/
def closeLoop (resp : Nat → Nat) : Nat → Nat → Option (Nat × Nat)
  | 0, _ => none
  | fuel + 1, i =>
      if resp i == SQLITE_BUSY then closeLoop resp fuel (i + 1) else some (resp i, i)

/-- Observable outcome of `SQLiteConnection_free`: how many close attempts and
sleeps ran, the status the engine gave the exiting close, and the
unconditional releases that follow (StringBuffer_free, then FREE, which also
nulls the caller pointer — the FREE macro is repository code outside src/,
modelled from the spec requirement that all owned memory is released). -/
structure FreeOutcome where
  closeAttempts : Nat
  sleeps : Nat
  finalCloseStatus : Nat
  sbFreed : Bool
  recordFreed : Bool
  pointerNulled : Bool
  deriving Repr, DecidableEq

/-- `SQLiteConnection_free` (lines 161-167): retry the native close while the
engine answers busy, sleeping 10 microseconds between attempts; once the loop
exits, free the scratch buffer and the delegate record regardless of the
final close status. The function itself reports nothing to its caller. -/
def SQLiteConnection_free (resp : Nat → Nat) (fuel : Nat) : Option FreeOutcome :=
  match closeLoop resp fuel 0 with
  | none => none
  | some r =>
      some { closeAttempts := r.2 + 1, sleeps := r.2, finalCloseStatus := r.1,
             sbFreed := true, recordFreed := true, pointerNulled := true }

/-- Trace of the close loop: `n` close attempts with 10 microsecond sleeps
between consecutive attempts. -/
def closeTrace (n : Nat) : List NativeCall := attemptTrace NativeCall.closeDB 10 n

/-- Observable outcome of `SQLiteConnection_new`: the delegate handed back (or
NULL), the error out-parameter, which resources were acquired and released
along the way, and the native-call trace. -/
structure NewOutcome where
  conn : Option ConnState
  error : Option String
  openCalled : Bool
  dbAcquired : Bool
  dbReleased : Bool
  sbAcquired : Bool
  sbFreed : Bool
  recordAcquired : Bool
  recordFreed : Bool
  calls : List NativeCall
  deriving Repr, DecidableEq

/-- `SQLiteConnection_new` (lines 142-158): connect through `_doConnect`; on
success allocate the zero-initialized record (NEW is calloc based, so maxRows
starts at 0), set the default busy timeout on the handle, create the scratch
buffer, and apply the URL properties. A property failure tears the delegate
down through `SQLiteConnection_free` — whose FREE macro nulls the record
pointer, so the function returns NULL — with the property error left in the
caller error out-parameter. The result is `none` only when the modelled
teardown close loop ran out of fuel while the engine still answered busy. -/
def SQLiteConnection_new (url : URLModel) (openStatus : Nat) (openMsg : String)
    (pragmaResp : Nat → Nat) (pragmaMsg : Nat → String)
    (closeResp : Nat → Nat) (closeFuel : Nat) : Option NewOutcome :=
  let dc := doConnect url openStatus openMsg
  match dc.db with
  | none =>
      some { conn := none, error := dc.error, openCalled := dc.openCalled,
             dbAcquired := dc.openCalled, dbReleased := dc.closedAfterFailedOpen,
             sbAcquired := false, sbFreed := false,
             recordAcquired := false, recordFreed := false, calls := dc.calls }
  | some db =>
      let C : ConnState :=
        { db := db, maxRows := 0, timeout := SQL_DEFAULT_TIMEOUT,
          lastError := SQLITE_OK, sb := "" }
      let sp := setProperties C url pragmaResp pragmaMsg
      if sp.ok then
        some { conn := some sp.state, error := none, openCalled := true,
               dbAcquired := true, dbReleased := false,
               sbAcquired := true, sbFreed := false,
               recordAcquired := true, recordFreed := false,
               calls := dc.calls ++ [NativeCall.busyTimeout SQL_DEFAULT_TIMEOUT] ++ sp.calls }
      else
        match SQLiteConnection_free closeResp closeFuel with
        | none => none
        | some f =>
            some { conn := none, error := sp.error, openCalled := true,
                   dbAcquired := true, dbReleased := f.finalCloseStatus == SQLITE_OK,
                   sbAcquired := true, sbFreed := f.sbFreed,
                   recordAcquired := true, recordFreed := f.recordFreed,
                   calls := dc.calls ++ [NativeCall.busyTimeout SQL_DEFAULT_TIMEOUT]
                            ++ sp.calls ++ closeTrace f.closeAttempts }

/-- A delegate operation together with the engine responses it will meet, for
reasoning about sequences of operations on one delegate. -/
inductive ConnOp where
  | execute (sql : String) (resp : Nat → Nat) (msg : Nat → String)
  | ping (resp : Nat → Nat) (msg : Nat → String)
  | beginTransaction (resp : Nat → Nat) (msg : Nat → String)
  | commit (resp : Nat → Nat) (msg : Nat → String)
  | rollback (resp : Nat → Nat) (msg : Nat → String)
  | executeQuery (sql : String) (resp : Nat → Nat) (msg : Nat → String) (bindCount : Nat)
  | prepareStatement (sql : String) (resp : Nat → Nat) (msg : Nat → String) (bindCount : Nat)
  | lastRowId
  | rowsChanged

/-- State transition of one delegate operation. -/
def stepOp (C : ConnState) : ConnOp → ConnState
  | ConnOp.execute sql resp msg => (SQLiteConnection_execute C sql resp msg).state
  | ConnOp.ping resp msg => (SQLiteConnection_ping C resp msg).state
  | ConnOp.beginTransaction resp msg => (SQLiteConnection_beginTransaction C resp msg).state
  | ConnOp.commit resp msg => (SQLiteConnection_commit C resp msg).state
  | ConnOp.rollback resp msg => (SQLiteConnection_rollback C resp msg).state
  | ConnOp.executeQuery sql resp msg bc => (SQLiteConnection_executeQuery C sql resp msg bc).state
  | ConnOp.prepareStatement sql resp msg bc =>
      (SQLiteConnection_prepareStatement C sql resp msg bc).state
  | ConnOp.lastRowId => C
  | ConnOp.rowsChanged => C

/-- Run a sequence of delegate operations. -/
def runOps (C : ConnState) : List ConnOp → ConnState
  | [] => C
  | op :: rest => runOps (stepOp C op) rest

/-- The engine message produced by the final status-returning native call an
operation performs, when it performs one: the exec and prepare based
operations each end in such a call; the two counter reads perform none. -/
def opFinalStatusMsg (timeout : Nat) : ConnOp → Option String
  | ConnOp.execute _ resp msg => some (msg (EXEC_SQLITE timeout resp).1)
  | ConnOp.ping resp msg => some (msg (EXEC_SQLITE timeout resp).1)
  | ConnOp.beginTransaction resp msg => some (msg (EXEC_SQLITE timeout resp).1)
  | ConnOp.commit resp msg => some (msg (EXEC_SQLITE timeout resp).1)
  | ConnOp.rollback resp msg => some (msg (EXEC_SQLITE timeout resp).1)
  | ConnOp.executeQuery _ resp msg _ => some (msg (EXEC_SQLITE timeout resp).1)
  | ConnOp.prepareStatement _ resp msg _ => some (msg (EXEC_SQLITE timeout resp).1)
  | ConnOp.lastRowId => none
  | ConnOp.rowsChanged => none

/-- The message left on the handle after a sequence of operations, starting
from message `m`: each status-returning native call overwrites it, the
counter reads keep it. -/
def lastMsgFold (timeout : Nat) (m : String) : List ConnOp → String
  | [] => m
  | op :: rest => lastMsgFold timeout ((opFinalStatusMsg timeout op).getD m) rest

/-- The message describing the outcome of the most recent native call an
operation performs, as the claim under test reads getLastError: for the exec
and prepare based operations the engine message of the final status, and for
the counter reads — native calls that always succeed — the sqlite success
message. This definition follows the words of the specification claim, to be
compared with the driver behavior. -/
def specMostRecentCallMsg (timeout : Nat) (op : ConnOp) : String :=
  (opFinalStatusMsg timeout op).getD "not an error"

/-! Helper lemmas. -/

theorem closeLoop_exits (resp : Nat → Nat) :
    ∀ (n start : Nat), (∀ i, i < n → resp (start + i) = SQLITE_BUSY) →
      resp (start + n) ≠ SQLITE_BUSY →
      closeLoop resp (n + 1) start = some (resp (start + n), start + n) := by
  intro n
  induction n with
  | zero =>
      intro start _ hstop
      have hc : (resp start == SQLITE_BUSY) = false := by
        simp only [beq_eq_false_iff_ne, ne_eq]
        exact hstop
      show closeLoop resp 1 start = some (resp start, start)
      simp [closeLoop, hc]
  | succ n ih =>
      intro start hbusy hstop
      have h0 : (resp start == SQLITE_BUSY) = true := by
        have := hbusy 0 (Nat.succ_pos n)
        simpa using this
      have hrec := ih (start + 1)
        (fun i hi => by
          have h := hbusy (i + 1) (by omega)
          have e : start + (i + 1) = start + 1 + i := by omega
          rwa [e] at h)
        (by
          have e : start + (n + 1) = start + 1 + n := by omega
          rwa [e] at hstop)
      have e2 : start + 1 + n = start + (n + 1) := by omega
      calc closeLoop resp (n + 1 + 1) start = closeLoop resp (n + 1) (start + 1) := by
            simp only [closeLoop, h0, if_true]
        _ = some (resp (start + 1 + n), start + 1 + n) := hrec
        _ = some (resp (start + (n + 1)), start + (n + 1)) := by rw [e2]

theorem execRetryLoop_allTransient (resp : Nat → Nat)
    (h : ∀ i, isTransient (resp i) = true) :
    ∀ (fuel i : Nat), execRetryLoop resp fuel i = (resp (i + fuel), i + fuel + 1) := by
  intro fuel
  induction fuel with
  | zero => intro i; simp [execRetryLoop]
  | succ fuel ih =>
      intro i
      have e : (i + 1) + fuel = i + (fuel + 1) := by omega
      simp only [execRetryLoop, h i, if_true]
      rw [ih (i + 1), e]

theorem execRetryLoop_firstExit (resp : Nat → Nat) (fuel i : Nat)
    (h : isTransient (resp i) = false) :
    execRetryLoop resp fuel i = (resp i, i + 1) := by
  cases fuel with
  | zero => rfl
  | succ fuel => simp [execRetryLoop, h]

theorem EXEC_SQLITE_ok (timeout : Nat) (resp : Nat → Nat) (h : resp 0 = SQLITE_OK) :
    EXEC_SQLITE timeout resp = (SQLITE_OK, 1) := by
  have ht : isTransient (resp 0) = false := by rw [h]; decide
  unfold EXEC_SQLITE
  rw [execRetryLoop_firstExit resp _ 0 ht, h]

theorem append_ne_empty_of_left (s t : String) (h : 0 < s.length) : s ++ t ≠ "" := by
  intro he
  have hl : (s ++ t).length = 0 := by rw [he]; rfl
  rw [String.length_append] at hl
  omega

theorem stepOp_timeout (C : ConnState) (op : ConnOp) : (stepOp C op).timeout = C.timeout := by
  cases op <;>
    simp [stepOp, SQLiteConnection_execute, SQLiteConnection_ping,
      SQLiteConnection_beginTransaction, SQLiteConnection_commit, SQLiteConnection_rollback,
      SQLiteConnection_executeQuery, SQLiteConnection_prepareStatement, executeSQL, apply_ite]

theorem stepOp_errmsg (C : ConnState) (op : ConnOp) :
    (stepOp C op).db.errmsg = (opFinalStatusMsg C.timeout op).getD C.db.errmsg := by
  cases op <;>
    simp [stepOp, opFinalStatusMsg, SQLiteConnection_execute, SQLiteConnection_ping,
      SQLiteConnection_beginTransaction, SQLiteConnection_commit, SQLiteConnection_rollback,
      SQLiteConnection_executeQuery, SQLiteConnection_prepareStatement, executeSQL, apply_ite]

theorem SQLiteConnection_free_eq (resp : Nat → Nat) (n : Nat)
    (hbusy : ∀ i, i < n → resp i = SQLITE_BUSY) (hstop : resp n ≠ SQLITE_BUSY) :
    SQLiteConnection_free resp (n + 1) =
      some { closeAttempts := n + 1, sleeps := n, finalCloseStatus := resp n,
             sbFreed := true, recordFreed := true, pointerNulled := true } := by
  have h := closeLoop_exits resp n 0
    (fun i hi => by rw [Nat.zero_add]; exact hbusy i hi)
    (by rw [Nat.zero_add]; exact hstop)
  rw [Nat.zero_add] at h
  unfold SQLiteConnection_free
  rw [h]

/-! Claim theorems. -/

/-- C1: for every engine whose close call answers busy for the first `n`
attempts and then gives any non-busy answer, `SQLiteConnection_free` retries
the native close exactly while the engine reports busy, sleeping briefly
between attempts, and after that engine-defined exhaustion point it frees the
scratch buffer and the delegate record (and FREE nulls the caller pointer)
regardless of the final close status; the function reports no failure to its
caller. -/
theorem free_retries_busy_then_forces_release (resp : Nat → Nat) (n : Nat)
    (hbusy : ∀ i, i < n → resp i = SQLITE_BUSY) (hstop : resp n ≠ SQLITE_BUSY) :
    SQLiteConnection_free resp (n + 1) =
      some { closeAttempts := n + 1, sleeps := n, finalCloseStatus := resp n,
             sbFreed := true, recordFreed := true, pointerNulled := true } :=
  SQLiteConnection_free_eq resp n hbusy hstop

/-- Witness for C1: an engine that answers busy twice and then SQLITE_MISUSE;
the memory is released regardless of that final answer. -/
theorem free_retries_busy_then_forces_release_witness :
    SQLiteConnection_free (fun i => if i < 2 then SQLITE_BUSY else SQLITE_MISUSE) 3 =
      some { closeAttempts := 3, sleeps := 2, finalCloseStatus := SQLITE_MISUSE,
             sbFreed := true, recordFreed := true, pointerNulled := true } := by
  have h := free_retries_busy_then_forces_release
    (fun i => if i < 2 then SQLITE_BUSY else SQLITE_MISUSE) 2
    (by decide) (by decide)
  simpa using h

/-- The three failure stages of `SQLiteConnection_new`: missing database path,
native open failure, or failure to apply the URL properties (which only run
when the URL has parameters). -/
def newFails (url : URLModel) (openStatus : Nat) (pragmaResp : Nat → Nat) : Prop :=
  url.path = none ∨ openStatus ≠ SQLITE_OK ∨
    (url.params ≠ [] ∧ (EXEC_SQLITE SQL_DEFAULT_TIMEOUT pragmaResp).1 ≠ SQLITE_OK)

/-- C2: whenever `SQLiteConnection_new` fails — missing path, native open
failure, or session-setting failure — it returns NULL (never a partially
valid delegate), stores a nonempty descriptive message in the error
out-parameter, and every partially acquired resource (native handle, scratch
buffer, delegate record) has been released; and it fails in exactly those
cases. The engine is assumed to stop answering busy on the teardown close
after `n` attempts and then accept the close. -/
theorem new_failure_releases_reports_and_returns_null
    (url : URLModel) (openStatus : Nat) (openMsg : String)
    (pragmaResp : Nat → Nat) (pragmaMsg : Nat → String)
    (closeResp : Nat → Nat) (n : Nat)
    (hbusy : ∀ i, i < n → closeResp i = SQLITE_BUSY) (hstop : closeResp n = SQLITE_OK) :
    ∃ r, SQLiteConnection_new url openStatus openMsg pragmaResp pragmaMsg closeResp (n + 1)
        = some r ∧
      (r.conn = none ↔ newFails url openStatus pragmaResp) ∧
      (newFails url openStatus pragmaResp →
        (∃ e, r.error = some e ∧ e ≠ "") ∧
        (r.dbAcquired = true → r.dbReleased = true) ∧
        (r.sbAcquired = true → r.sbFreed = true) ∧
        (r.recordAcquired = true → r.recordFreed = true)) := by
  have hfree := SQLiteConnection_free_eq closeResp n hbusy (by rw [hstop]; decide)
  obtain ⟨path, params⟩ := url
  cases path with
  | none =>
      refine ⟨_, rfl, by simp [newFails], ?_⟩
      intro _
      exact ⟨⟨"no database specified in URL", rfl, by decide⟩,
        by simp [doConnect], by simp [doConnect], by simp [doConnect]⟩
  | some p =>
      by_cases hos : openStatus = SQLITE_OK
      · subst hos
        cases params with
        | nil =>
            refine ⟨_, rfl, by simp [newFails], ?_⟩
            intro hf
            rcases hf with hf | hf | hf
            · exact absurd hf (by simp)
            · exact absurd rfl hf
            · exact absurd hf.1 (by simp)
        | cons q qs =>
            by_cases hp : (EXEC_SQLITE SQL_DEFAULT_TIMEOUT pragmaResp).1 = SQLITE_OK
            · have hc : ((EXEC_SQLITE SQL_DEFAULT_TIMEOUT pragmaResp).1 == SQLITE_OK) = true :=
                beq_iff_eq.mpr hp
              simp only [SQLiteConnection_new, doConnect, setProperties, executeSQL,
                beq_self_eq_true, hc, apply_ite, if_true]
              refine ⟨_, rfl, by simp [newFails, hp], ?_⟩
              intro hf
              rcases hf with hf | hf | hf
              · exact absurd hf (by simp)
              · exact absurd rfl hf
              · exact absurd hp hf.2
            · have hc : ((EXEC_SQLITE SQL_DEFAULT_TIMEOUT pragmaResp).1 == SQLITE_OK) = false :=
                beq_eq_false_iff_ne.mpr hp
              simp only [SQLiteConnection_new, doConnect, setProperties, executeSQL,
                beq_self_eq_true, hc, apply_ite, if_false, Bool.false_eq_true, hfree]
              refine ⟨_, rfl, by simp [newFails, hp], ?_⟩
              intro _
              refine ⟨⟨_, rfl, ?_⟩, ?_, by simp, by simp⟩
              · exact append_ne_empty_of_left _ _ (by decide)
              · intro _
                simp [hstop]
      · have hc : (openStatus == SQLITE_OK) = false := beq_eq_false_iff_ne.mpr hos
        simp only [SQLiteConnection_new, doConnect, hc, apply_ite, if_false,
          Bool.false_eq_true]
        refine ⟨_, rfl, by simp [newFails, hos], ?_⟩
        intro _
        refine ⟨⟨_, rfl, ?_⟩, by simp, by simp, by simp⟩
        exact append_ne_empty_of_left _ _ (by
          rw [String.length_append, String.length_append]
          have h1 : 0 < "cannot open database \x27".length := by decide
          omega)

/-- Witness for C2: a URL with no database path, against an engine that would
accept everything. -/
theorem new_failure_releases_reports_and_returns_null_witness :
    ∃ r, SQLiteConnection_new ⟨none, []⟩ SQLITE_OK "" (fun _ => SQLITE_OK) (fun _ => "")
        (fun _ => SQLITE_OK) 1 = some r ∧
      (r.conn = none ↔ newFails ⟨none, []⟩ SQLITE_OK (fun _ => SQLITE_OK)) ∧
      (newFails ⟨none, []⟩ SQLITE_OK (fun _ => SQLITE_OK) →
        (∃ e, r.error = some e ∧ e ≠ "") ∧
        (r.dbAcquired = true → r.dbReleased = true) ∧
        (r.sbAcquired = true → r.sbFreed = true) ∧
        (r.recordAcquired = true → r.recordFreed = true)) :=
  new_failure_releases_reports_and_returns_null ⟨none, []⟩ SQLITE_OK "" (fun _ => SQLITE_OK)
    (fun _ => "") (fun _ => SQLITE_OK) 0 (by decide) rfl

/-- C3: execute, executeQuery and prepareStatement all run their native call
through the same busy-retry policy (`EXEC_SQLITE`): while the engine answers
a transient busy/locked status the call is retried — at least one retry
happens when the timeout allows one, so the transient condition is never
surfaced immediately — and on exhausting the timeout budget each call turns
into an ordinary failure (false or NULL) with `lastError` holding the
transient status and `getLastError` the engine explanation of it. -/
theorem busy_retry_shared_policy (C : ConnState) (sql : String) (resp : Nat → Nat)
    (msg : Nat → String) (bc : Nat)
    (hall : ∀ i, isTransient (resp i) = true) (ht : RETRY_SLEEP_MS ≤ C.timeout) :
    EXEC_SQLITE C.timeout resp = (resp (retryBudget C.timeout), retryBudget C.timeout + 1) ∧
    isTransient (EXEC_SQLITE C.timeout resp).1 = true ∧
    2 ≤ (EXEC_SQLITE C.timeout resp).2 ∧
    (SQLiteConnection_execute C sql resp msg).success = false ∧
    (SQLiteConnection_execute C sql resp msg).state.lastError = (EXEC_SQLITE C.timeout resp).1 ∧
    SQLiteConnection_getLastError (SQLiteConnection_execute C sql resp msg).state
      = msg (EXEC_SQLITE C.timeout resp).1 ∧
    (SQLiteConnection_executeQuery C sql resp msg bc).result = none ∧
    (SQLiteConnection_executeQuery C sql resp msg bc).state.lastError
      = (EXEC_SQLITE C.timeout resp).1 ∧
    SQLiteConnection_getLastError (SQLiteConnection_executeQuery C sql resp msg bc).state
      = msg (EXEC_SQLITE C.timeout resp).1 ∧
    (SQLiteConnection_prepareStatement C sql resp msg bc).result = none ∧
    (SQLiteConnection_prepareStatement C sql resp msg bc).state.lastError
      = (EXEC_SQLITE C.timeout resp).1 ∧
    SQLiteConnection_getLastError (SQLiteConnection_prepareStatement C sql resp msg bc).state
      = msg (EXEC_SQLITE C.timeout resp).1 := by
  have he : EXEC_SQLITE C.timeout resp
      = (resp (retryBudget C.timeout), retryBudget C.timeout + 1) := by
    unfold EXEC_SQLITE
    rw [execRetryLoop_allTransient resp hall (retryBudget C.timeout) 0]
    simp
  have he1 : (EXEC_SQLITE C.timeout resp).1 = resp (retryBudget C.timeout) := by rw [he]
  have he2 : (EXEC_SQLITE C.timeout resp).2 = retryBudget C.timeout + 1 := by rw [he]
  have h56 : resp (retryBudget C.timeout) = 5 ∨ resp (retryBudget C.timeout) = 6 := by
    have h := hall (retryBudget C.timeout)
    simpa [isTransient, SQLITE_BUSY, SQLITE_LOCKED] using h
  have hfb : ((EXEC_SQLITE C.timeout resp).1 == SQLITE_OK) = false := by
    rw [he1]
    simp only [SQLITE_OK, beq_eq_false_iff_ne, ne_eq]
    rcases h56 with h | h <;> omega
  have hbudget : 1 ≤ retryBudget C.timeout := by
    unfold retryBudget
    unfold RETRY_SLEEP_MS at ht ⊢
    omega
  refine ⟨he, ?_, ?_, ?_, ?_, ?_, ?_, ?_, ?_, ?_, ?_, ?_⟩
  · rw [he1]; exact hall _
  · rw [he2]; omega
  · simp [SQLiteConnection_execute, executeSQL, hfb]
  · simp [SQLiteConnection_execute, executeSQL]
  · simp [SQLiteConnection_getLastError, SQLiteConnection_execute, executeSQL]
  · simp [SQLiteConnection_executeQuery, hfb]
  · simp [SQLiteConnection_executeQuery, hfb]
  · simp [SQLiteConnection_getLastError, SQLiteConnection_executeQuery, hfb]
  · simp [SQLiteConnection_prepareStatement, hfb]
  · simp [SQLiteConnection_prepareStatement, hfb]
  · simp [SQLiteConnection_getLastError, SQLiteConnection_prepareStatement, hfb]

/-- Witness for C3: a delegate with the default timeout against an engine that
always answers busy; all three operations fail ordinarily. -/
theorem busy_retry_shared_policy_witness :
    (SQLiteConnection_execute ⟨⟨"not an error", 0, 0⟩, 0, 3000, 0, ""⟩ "select 1;"
        (fun _ => SQLITE_BUSY) (fun _ => "database is locked")).success = false ∧
    (SQLiteConnection_executeQuery ⟨⟨"not an error", 0, 0⟩, 0, 3000, 0, ""⟩ "select 1;"
        (fun _ => SQLITE_BUSY) (fun _ => "database is locked") 0).result = none ∧
    (SQLiteConnection_prepareStatement ⟨⟨"not an error", 0, 0⟩, 0, 3000, 0, ""⟩ "select 1;"
        (fun _ => SQLITE_BUSY) (fun _ => "database is locked") 0).result = none := by
  have h := busy_retry_shared_policy ⟨⟨"not an error", 0, 0⟩, 0, 3000, 0, ""⟩ "select 1;"
    (fun _ => SQLITE_BUSY) (fun _ => "database is locked") 0 (fun i => rfl) (by decide)
  exact ⟨h.2.2.2.1, h.2.2.2.2.2.2.1, h.2.2.2.2.2.2.2.2.2.1⟩

theorem propLoop_contains_pragma :
    ∀ (params : List (String × String)) (nm v : String),
      (nm, v) ∈ params → nm ≠ "heap_limit" →
      ∃ pre post, (propLoop params).1 = pre ++ pragmaEntry nm v ++ post := by
  intro params
  induction params with
  | nil => intro nm v h _; exact absurd h (List.not_mem_nil _)
  | cons q rest ih =>
      intro nm v hmem hne
      obtain ⟨qn, qv⟩ := q
      rcases List.mem_cons.mp hmem with heq | hmem2
      · cases heq
        refine ⟨"", (propLoop rest).1, ?_⟩
        simp [propLoop, hne, String.append_assoc]
      · obtain ⟨pre, post, hpp⟩ := ih nm v hmem2 hne
        by_cases hq : qn = "heap_limit"
        · exact ⟨pre, post, by simp [propLoop, hq, hpp]⟩
        · refine ⟨pragmaEntry qn qv ++ pre, post, ?_⟩
          simp [propLoop, hq, hpp, String.append_assoc]

theorem propLoop_heap_limit_call :
    ∀ (params : List (String × String)) (v : String),
      ("heap_limit", v) ∈ params →
      NativeCall.softHeapLimit v ∈ (propLoop params).2 := by
  intro params
  induction params with
  | nil => intro v h; exact absurd h (List.not_mem_nil _)
  | cons q rest ih =>
      intro v hmem
      obtain ⟨qn, qv⟩ := q
      rcases List.mem_cons.mp hmem with heq | hmem2
      · cases heq
        simp [propLoop]
      · by_cases hq : qn = "heap_limit" <;> simp [propLoop, hq, ih v hmem2]

theorem propLoop_sql_ignores_heap_limit :
    ∀ params : List (String × String),
      (propLoop params).1 = (propLoop (params.filter (fun pv => pv.1 != "heap_limit"))).1 := by
  intro params
  induction params with
  | nil => rfl
  | cons q rest ih =>
      obtain ⟨qn, qv⟩ := q
      by_cases hq : qn = "heap_limit" <;>
        simp [propLoop, hq, List.filter_cons, ih]

theorem mem_attemptTrace (call : NativeCall) (us : Nat) :
    ∀ n, 1 ≤ n → call ∈ attemptTrace call us n := by
  intro n _
  match n, (by omega : 1 ≤ n) with
  | 1, _ => simp [attemptTrace]
  | m + 2, _ => simp [attemptTrace]

theorem execRetryLoop_snd_pos (resp : Nat → Nat) :
    ∀ (fuel i : Nat), 1 ≤ (execRetryLoop resp fuel i).2 := by
  intro fuel
  induction fuel with
  | zero => intro i; simp [execRetryLoop]
  | succ fuel ih =>
      intro i
      by_cases h : isTransient (resp i) = true
      · simpa [execRetryLoop, h] using ih (i + 1)
      · simp only [Bool.not_eq_true] at h
        simp [execRetryLoop, h]

/-- C4: at connection-open time every non-reserved URL parameter (nm, v)
appears in the PRAGMA batch the driver sends to the engine as
"PRAGMA nm = v; ", the reserved name "heap_limit" is handled by the driver
itself through a native soft-heap-limit call and contributes nothing to the
batch, the batch is actually executed as a session-setting statement, and a
failure to apply the settings aborts `SQLiteConnection_new` with the
descriptive pragma error and the native handle released. -/
theorem url_parameters_applied_as_pragmas
    (C : ConnState) (url : URLModel) (resp : Nat → Nat) (msg : Nat → String)
    (openMsg : String) (closeResp : Nat → Nat) (n : Nat)
    (hbusy : ∀ i, i < n → closeResp i = SQLITE_BUSY) (hstop : closeResp n = SQLITE_OK) :
    (∀ nm v, (nm, v) ∈ url.params → nm ≠ "heap_limit" →
        ∃ pre post, (propLoop url.params).1 = pre ++ pragmaEntry nm v ++ post) ∧
    (∀ v, ("heap_limit", v) ∈ url.params →
        NativeCall.softHeapLimit v ∈ (propLoop url.params).2) ∧
    (propLoop url.params).1
        = (propLoop (url.params.filter (fun pv => pv.1 != "heap_limit"))).1 ∧
    (url.params ≠ [] →
        NativeCall.execAttempt (propLoop url.params).1 ∈ (setProperties C url resp msg).calls) ∧
    (url.params ≠ [] → (EXEC_SQLITE SQL_DEFAULT_TIMEOUT resp).1 ≠ SQLITE_OK →
        ∀ p, url.path = some p →
        ∃ r, SQLiteConnection_new url SQLITE_OK openMsg resp msg closeResp (n + 1) = some r ∧
          r.conn = none ∧
          r.error = some ("unable to set database pragmas -- "
            ++ msg (EXEC_SQLITE SQL_DEFAULT_TIMEOUT resp).1) ∧
          r.dbReleased = true) := by
  have hfree := SQLiteConnection_free_eq closeResp n hbusy (by rw [hstop]; decide)
  obtain ⟨path, params⟩ := url
  refine ⟨propLoop_contains_pragma params, propLoop_heap_limit_call params,
    propLoop_sql_ignores_heap_limit params, ?_, ?_⟩
  · intro hne
    cases params with
    | nil => exact absurd rfl hne
    | cons q qs =>
        simp only [setProperties, executeSQL]
        rw [apply_ite SetPropsOutcome.calls, ite_self]
        refine List.mem_append.mpr (Or.inr ?_)
        exact mem_attemptTrace _ _ _ (execRetryLoop_snd_pos resp (retryBudget C.timeout) 0)
  · intro hne hfail p hpath
    subst hpath
    cases params with
    | nil => exact absurd rfl hne
    | cons q qs =>
        have hc : ((EXEC_SQLITE SQL_DEFAULT_TIMEOUT resp).1 == SQLITE_OK) = false :=
          beq_eq_false_iff_ne.mpr hfail
        simp only [SQLiteConnection_new, doConnect, setProperties, executeSQL,
          beq_self_eq_true, hc, apply_ite, if_false, Bool.false_eq_true, hfree]
        refine ⟨_, rfl, by simp, by simp, by simp [hstop]⟩

/-- Witness for C4: a URL with one ordinary pragma parameter and one
"heap_limit" parameter. -/
theorem url_parameters_applied_as_pragmas_witness :
    (∃ pre post, (propLoop [("synchronous", "normal"), ("heap_limit", "2000")]).1
        = pre ++ pragmaEntry "synchronous" "normal" ++ post) ∧
    NativeCall.softHeapLimit "2000" ∈
      (propLoop [("synchronous", "normal"), ("heap_limit", "2000")]).2 := by
  have h := url_parameters_applied_as_pragmas
    ⟨⟨"not an error", 0, 0⟩, 0, 3000, 0, ""⟩
    ⟨some "/tmp/test.db", [("synchronous", "normal"), ("heap_limit", "2000")]⟩
    (fun _ => SQLITE_OK) (fun _ => "not an error") "" (fun _ => SQLITE_OK) 0
    (by decide) rfl
  exact ⟨h.1 "synchronous" "normal" (by simp) (by decide), h.2.1 "2000" (by simp)⟩

/-- The operation sequence of the C5 counterexample: an execute that fails
with a syntax error, followed by lastRowId. -/
def failThenReadRowId : List ConnOp :=
  [ConnOp.execute "bogus" (fun _ => SQLITE_ERROR)
      (fun s => if s == SQLITE_OK then "not an error" else "near bogus: syntax error"),
   ConnOp.lastRowId]

/-- C5 counterexample: after a failing execute followed by lastRowId — whose
native call sqlite3_last_insert_rowid succeeds — getLastError still reports
the earlier execute failure and not the outcome of the most recent native
call performed on the delegate, so the claim as stated is false. -/
theorem getLastError_stale_after_lastRowId :
    SQLiteConnection_getLastError
        (runOps ⟨⟨"not an error", 0, 0⟩, 0, 3000, 0, ""⟩ failThenReadRowId)
      = "near bogus: syntax error" ∧
    specMostRecentCallMsg 3000 ConnOp.lastRowId = "not an error" ∧
    SQLiteConnection_getLastError
        (runOps ⟨⟨"not an error", 0, 0⟩, 0, 3000, 0, ""⟩ failThenReadRowId)
      ≠ specMostRecentCallMsg 3000 ConnOp.lastRowId := by
  refine ⟨by decide, rfl, by decide⟩

/-- C5 amended: getLastError reflects the most recent status-returning native
call on the delegate (the exec and prepare based operations); the read-only
counter calls lastRowId and rowsChanged leave it unchanged, so after any
operation sequence it equals the fold of the status-returning messages over
the sequence. -/
theorem getLastError_reflects_last_status_call (C : ConnState) (ops : List ConnOp) :
    SQLiteConnection_getLastError (runOps C ops) = lastMsgFold C.timeout C.db.errmsg ops := by
  induction ops generalizing C with
  | nil => rfl
  | cons op rest ih =>
      show SQLiteConnection_getLastError (runOps (stepOp C op) rest) = _
      rw [ih (stepOp C op), stepOp_timeout, stepOp_errmsg]
      rfl

/-- C6: when the prepare behind executeQuery fails, the call returns NULL,
lastError holds the failing status with getLastError giving the engine
explanation, and no native statement is left allocated (a failed
sqlite3_prepare_v2 yields no statement handle), so nothing leaks; on success
it returns a result-set delegate built from the compiled cursor, owning it
(keep = false) and carrying the connection maxRows cap. -/
theorem executeQuery_failure_nulls_success_cursor (C : ConnState) (sql : String)
    (resp : Nat → Nat) (msg : Nat → String) (bc : Nat) :
    ((EXEC_SQLITE C.timeout resp).1 ≠ SQLITE_OK →
      (SQLiteConnection_executeQuery C sql resp msg bc).result = none ∧
      (SQLiteConnection_executeQuery C sql resp msg bc).state.lastError
        = (EXEC_SQLITE C.timeout resp).1 ∧
      SQLiteConnection_getLastError (SQLiteConnection_executeQuery C sql resp msg bc).state
        = msg (EXEC_SQLITE C.timeout resp).1 ∧
      (SQLiteConnection_executeQuery C sql resp msg bc).danglingStmt = none) ∧
    ((EXEC_SQLITE C.timeout resp).1 = SQLITE_OK →
      (SQLiteConnection_executeQuery C sql resp msg bc).result
        = some { stmt := ⟨sql, bc⟩, maxRows := C.maxRows, keep := false } ∧
      (SQLiteConnection_executeQuery C sql resp msg bc).danglingStmt = none) := by
  constructor
  · intro h
    have hc : ((EXEC_SQLITE C.timeout resp).1 == SQLITE_OK) = false :=
      beq_eq_false_iff_ne.mpr h
    refine ⟨?_, ?_, ?_, ?_⟩ <;>
      simp [SQLiteConnection_executeQuery, SQLiteConnection_getLastError, hc]
  · intro h
    have hc : ((EXEC_SQLITE C.timeout resp).1 == SQLITE_OK) = true := beq_iff_eq.mpr h
    constructor <;> simp [SQLiteConnection_executeQuery, hc]

/-- Witness for C6: a failing and a succeeding query against concrete engine
answers. -/
theorem executeQuery_failure_nulls_success_cursor_witness :
    (SQLiteConnection_executeQuery ⟨⟨"not an error", 0, 0⟩, 20, 3000, 0, ""⟩ "select bogus;"
        (fun _ => SQLITE_ERROR) (fun _ => "syntax error") 0).result = none ∧
    (SQLiteConnection_executeQuery ⟨⟨"not an error", 0, 0⟩, 20, 3000, 0, ""⟩ "select 1;"
        (fun _ => SQLITE_OK) (fun _ => "not an error") 0).result
      = some { stmt := ⟨"select 1;", 0⟩, maxRows := 20, keep := false } := by
  have h1 := (executeQuery_failure_nulls_success_cursor
    ⟨⟨"not an error", 0, 0⟩, 20, 3000, 0, ""⟩ "select bogus;"
    (fun _ => SQLITE_ERROR) (fun _ => "syntax error") 0).1 (by decide)
  have h2 := (executeQuery_failure_nulls_success_cursor
    ⟨⟨"not an error", 0, 0⟩, 20, 3000, 0, ""⟩ "select 1;"
    (fun _ => SQLITE_OK) (fun _ => "not an error") 0).2 (by decide)
  exact ⟨h1.1, h2.1⟩

/-- C7: prepareStatement compiles exactly the formatted template text — bound
values are never string-substituted, the engine-native placeholders stay in
the compiled statement — and on success hands the caller the bindable
parameter count the engine reports for the compiled statement; on a non-OK
native status it returns NULL. -/
theorem prepareStatement_placeholders_and_count (C : ConnState) (sql : String)
    (resp : Nat → Nat) (msg : Nat → String) (bc : Nat) :
    (NativeCall.prepareAttempt sql ∈ (SQLiteConnection_prepareStatement C sql resp msg bc).calls) ∧
    ((EXEC_SQLITE C.timeout resp).1 = SQLITE_OK →
      (SQLiteConnection_prepareStatement C sql resp msg bc).result
        = some { delegate := { stmt := ⟨sql, bc⟩, maxRows := C.maxRows },
                 paramCount := bc }) ∧
    ((EXEC_SQLITE C.timeout resp).1 ≠ SQLITE_OK →
      (SQLiteConnection_prepareStatement C sql resp msg bc).result = none) := by
  refine ⟨?_, ?_, ?_⟩
  · simp only [SQLiteConnection_prepareStatement]
    rw [apply_ite PrepareOutcome.calls, ite_self]
    exact mem_attemptTrace _ _ _ (execRetryLoop_snd_pos resp (retryBudget C.timeout) 0)
  · intro h
    have hc : ((EXEC_SQLITE C.timeout resp).1 == SQLITE_OK) = true := beq_iff_eq.mpr h
    simp [SQLiteConnection_prepareStatement, hc]
  · intro h
    have hc : ((EXEC_SQLITE C.timeout resp).1 == SQLITE_OK) = false :=
      beq_eq_false_iff_ne.mpr h
    simp [SQLiteConnection_prepareStatement, hc]

/-- Witness for C7: preparing a two-placeholder statement against an engine
that accepts it. -/
theorem prepareStatement_placeholders_and_count_witness :
    (SQLiteConnection_prepareStatement ⟨⟨"not an error", 0, 0⟩, 0, 3000, 0, ""⟩
        "insert into t values (?, ?);" (fun _ => SQLITE_OK) (fun _ => "not an error") 2).result
      = some { delegate := { stmt := ⟨"insert into t values (?, ?);", 2⟩, maxRows := 0 },
               paramCount := 2 } :=
  (prepareStatement_placeholders_and_count ⟨⟨"not an error", 0, 0⟩, 0, 3000, 0, ""⟩
    "insert into t values (?, ?);" (fun _ => SQLITE_OK) (fun _ => "not an error") 2).2.1
    (by decide)

/-- C8: beginTransaction, commit and rollback each issue exactly the
corresponding transaction-control statement (every native attempt carries
that statement text), return a plain boolean that is true exactly when the
final native status is SQLITE_OK, and leave getLastError holding the engine
explanation of that final status. -/
theorem transaction_controls_issue_statement_and_report (C : ConnState)
    (resp : Nat → Nat) (msg : Nat → String) :
    ((SQLiteConnection_beginTransaction C resp msg).calls
        = attemptTrace (NativeCall.execAttempt "BEGIN TRANSACTION;") (RETRY_SLEEP_MS * 1000)
            (EXEC_SQLITE C.timeout resp).2 ∧
      ((SQLiteConnection_beginTransaction C resp msg).success = true
        ↔ (EXEC_SQLITE C.timeout resp).1 = SQLITE_OK) ∧
      SQLiteConnection_getLastError (SQLiteConnection_beginTransaction C resp msg).state
        = msg (EXEC_SQLITE C.timeout resp).1) ∧
    ((SQLiteConnection_commit C resp msg).calls
        = attemptTrace (NativeCall.execAttempt "COMMIT TRANSACTION;") (RETRY_SLEEP_MS * 1000)
            (EXEC_SQLITE C.timeout resp).2 ∧
      ((SQLiteConnection_commit C resp msg).success = true
        ↔ (EXEC_SQLITE C.timeout resp).1 = SQLITE_OK) ∧
      SQLiteConnection_getLastError (SQLiteConnection_commit C resp msg).state
        = msg (EXEC_SQLITE C.timeout resp).1) ∧
    ((SQLiteConnection_rollback C resp msg).calls
        = attemptTrace (NativeCall.execAttempt "ROLLBACK TRANSACTION;") (RETRY_SLEEP_MS * 1000)
            (EXEC_SQLITE C.timeout resp).2 ∧
      ((SQLiteConnection_rollback C resp msg).success = true
        ↔ (EXEC_SQLITE C.timeout resp).1 = SQLITE_OK) ∧
      SQLiteConnection_getLastError (SQLiteConnection_rollback C resp msg).state
        = msg (EXEC_SQLITE C.timeout resp).1) := by
  refine ⟨⟨rfl, ?_, rfl⟩, ⟨rfl, ?_, rfl⟩, ⟨rfl, ?_, rfl⟩⟩ <;>
    simp [SQLiteConnection_beginTransaction, SQLiteConnection_commit,
      SQLiteConnection_rollback, executeSQL]

/-- C9: for every URL naming a reachable target — it has a database path, the
native open succeeds, and the engine accepts the session settings and the
ping statement on their first attempt — `new` succeeds, and an immediately
following ping issues the no-op statement "select 1;" exactly once and
returns true. -/
theorem new_then_ping_returns_true (url : URLModel) (p : String) (openMsg : String)
    (pragmaResp pingResp : Nat → Nat) (pragmaMsg pingMsg : Nat → String)
    (closeResp : Nat → Nat) (closeFuel : Nat)
    (hpath : url.path = some p)
    (hpragma : pragmaResp 0 = SQLITE_OK)
    (hping : pingResp 0 = SQLITE_OK) :
    ∃ r conn,
      SQLiteConnection_new url SQLITE_OK openMsg pragmaResp pragmaMsg closeResp closeFuel
        = some r ∧ r.conn = some conn ∧
      (SQLiteConnection_ping conn pingResp pingMsg).success = true ∧
      (SQLiteConnection_ping conn pingResp pingMsg).calls
        = [NativeCall.execAttempt "select 1;"] := by
  have hpra := EXEC_SQLITE_ok SQL_DEFAULT_TIMEOUT pragmaResp hpragma
  have hpin := EXEC_SQLITE_ok SQL_DEFAULT_TIMEOUT pingResp hping
  obtain ⟨path, params⟩ := url
  have hp : path = some p := hpath
  subst hp
  cases params with
  | nil =>
      refine ⟨_, _, rfl, rfl, ?_, ?_⟩ <;>
        simp [SQLiteConnection_ping, setProperties, executeSQL, hpin, attemptTrace]
  | cons q qs =>
      simp only [SQLiteConnection_new, doConnect, setProperties, executeSQL, hpra,
        beq_self_eq_true, if_true]
      refine ⟨_, _, rfl, rfl, ?_, ?_⟩ <;>
        simp [SQLiteConnection_ping, setProperties, executeSQL, hpin, attemptTrace]

/-- Witness for C9: a concrete file URL with one pragma parameter against an
engine that accepts everything on the first attempt. -/
theorem new_then_ping_returns_true_witness :
    ∃ r conn,
      SQLiteConnection_new ⟨some "/tmp/test.db", [("synchronous", "normal")]⟩ SQLITE_OK ""
          (fun _ => SQLITE_OK) (fun _ => "not an error") (fun _ => SQLITE_OK) 1
        = some r ∧ r.conn = some conn ∧
      (SQLiteConnection_ping conn (fun _ => SQLITE_OK) (fun _ => "not an error")).success
        = true ∧
      (SQLiteConnection_ping conn (fun _ => SQLITE_OK) (fun _ => "not an error")).calls
        = [NativeCall.execAttempt "select 1;"] :=
  new_then_ping_returns_true ⟨some "/tmp/test.db", [("synchronous", "normal")]⟩ "/tmp/test.db"
    "" (fun _ => SQLITE_OK) (fun _ => SQLITE_OK) (fun _ => "not an error")
    (fun _ => "not an error") (fun _ => SQLITE_OK) 1 rfl rfl rfl

/-- C10: a URL with no path component makes `new` return NULL with exactly the
error message "no database specified in URL"; the native open is never
invoked, no resource is acquired, and the native-call trace is empty. -/
theorem new_without_path_exact_error_no_open (url : URLModel) (openStatus : Nat)
    (openMsg : String) (pragmaResp : Nat → Nat) (pragmaMsg : Nat → String)
    (closeResp : Nat → Nat) (closeFuel : Nat)
    (hpath : url.path = none) :
    SQLiteConnection_new url openStatus openMsg pragmaResp pragmaMsg closeResp closeFuel
      = some { conn := none, error := some "no database specified in URL",
               openCalled := false, dbAcquired := false, dbReleased := false,
               sbAcquired := false, sbFreed := false,
               recordAcquired := false, recordFreed := false, calls := [] } := by
  obtain ⟨path, params⟩ := url
  have hp : path = none := hpath
  subst hp
  rfl

/-- Witness for C10: a parameterless URL with no path. -/
theorem new_without_path_exact_error_no_open_witness :
    SQLiteConnection_new ⟨none, []⟩ SQLITE_OK "" (fun _ => SQLITE_OK) (fun _ => "")
        (fun _ => SQLITE_OK) 1
      = some { conn := none, error := some "no database specified in URL",
               openCalled := false, dbAcquired := false, dbReleased := false,
               sbAcquired := false, sbFreed := false,
               recordAcquired := false, recordFreed := false, calls := [] } :=
  new_without_path_exact_error_no_open ⟨none, []⟩ SQLITE_OK "" (fun _ => SQLITE_OK)
    (fun _ => "") (fun _ => SQLITE_OK) 1 rfl
